import Mathlib

set_option autoImplicit false

/-!
Verification of the SyncBit backend room-synchronization engine.

The repository carries several iterations of the same RoomManager class.
They are embedded here in separate namespaces:

* `PartZero`  — the redis-backed RoomManager of src/unnamed/part_000
  (no savedElapsedTime, quadratic gain falloff).
* `PartOneB`  — the second RoomManager in src/unnamed/part_001
  (savedElapsedTime, linear gain falloff with an imported RADIUS constant).
* `PartTwoA`  — the first RoomManager in src/unnamed/part_002
  (HLS segmentation and the late-joiner sync).
* `PartTwoB`  — the second RoomManager in src/unnamed/part_002
  (per-song playback with playbackStartTime buffering).
* `Sockets`   — the socket event handlers of src/src/sockets/socketHandlers.js
  (first document), which drive the PartZero manager.

Times and durations are JavaScript millisecond numbers, embedded as `Int`.
Planar points and gains are embedded as real numbers.  JavaScript objects
and Maps are embedded as insertion-ordered association lists.
-/

namespace SyncBit

/-- JavaScript `x || d` on a number `x`: `0` is falsy, every other number is
truthy. -/
def jsOrInt (x d : Int) : Int := if x = 0 then d else x

/-- JavaScript `x || d` where `x` is a number field that may also be
`null`/`undefined` (embedded as `none`): `null`, `undefined` and `0` are
falsy. -/
def jsOrOpt (x : Option Int) (d : Int) : Int :=
  match x with
  | none => d
  | some v => if v = 0 then d else v

/-- JavaScript truthiness of a time field holding `null`/`undefined` or a
number: `null`, `undefined` and `0` are falsy. -/
def jsTruthyTime : Option Int → Bool
  | none => false
  | some t => t ≠ 0

/-- JavaScript truthiness of a string field that may be `null`/`undefined`:
`null`, `undefined` and the empty string are falsy. -/
def jsTruthyStr : Option String → Bool
  | none => false
  | some s => s ≠ ""

/-- JavaScript `list.forEach((item, index) => ...)` rebuilding each entry
from its value and running index, as `updateClientPositions` does in every
RoomManager iteration. -/
def mapIdxFrom {α : Type} (f : Nat → α → α) : List α → Nat → List α
  | [], _ => []
  | a :: as, i => f i a :: mapIdxFrom f as (i + 1)

/-- Read of a JavaScript object property: the first entry with the key.
JavaScript objects have unique keys; on such lists this is the lookup. -/
def objGet {α : Type} (l : List (String × α)) (k : String) : Option α :=
  (l.find? (fun p => p.1 = k)).map (fun p => p.2)

/-- JavaScript `obj[k] = v`: an existing key keeps its position and gets the
new value, a new key is appended in insertion order. -/
def objSet {α : Type} (l : List (String × α)) (k : String) (v : α) :
    List (String × α) :=
  if l.any (fun p => p.1 = k) then
    l.map (fun p => if p.1 = k then (k, v) else p)
  else l ++ [(k, v)]

/-- JavaScript `delete obj[k]` (and `Map.delete`): drops the entries with the
key, keeping the order of the rest. -/
def objDelete {α : Type} (l : List (String × α)) (k : String) :
    List (String × α) :=
  l.filter (fun p => p.1 ≠ k)

/-- A key-set view of a JavaScript Map whose values are live handles (socket
objects, interval ids): `Map.set` adds the key if absent. -/
def keySet (l : List String) (k : String) : List String :=
  if k ∈ l then l else l ++ [k]

/-- `Map.delete` on a key-set view. -/
def keyDelete (l : List String) (k : String) : List String :=
  l.filter (fun s => s ≠ k)

/-- A 2D point, as the `{x, y}` position objects of the source. -/
structure Point where
  x : Real
  y : Real

/-- Euclidean distance between two points, as the `_distance` helper shared
by every RoomManager iteration. -/
noncomputable def pointDistance (p1 p2 : Point) : Real :=
  Real.sqrt ((p1.x - p2.x) ^ 2 + (p1.y - p2.y) ^ 2)

/-- Reference gain model as the spec words it in section 4.3:
gain = max(gMin, 1 - (d/R)), linear falloff with floor gMin. -/
noncomputable def specGain (r gMin d : Real) : Real :=
  max gMin (1 - d / r)

namespace PartZero

/-- A client entry of the part_000 RoomManager: `{ position, username }`. -/
structure Client where
  position : Point
  username : String

/-- The room object persisted by the part_000 RoomManager (`initRoom`):
`{ clients, spatialEnabled, songEnabled, listeningSource, startTime,
songDuration }`; startTime and songDuration start as `null`. -/
structure Room where
  clients : List (String × Client)
  spatialEnabled : Bool
  songEnabled : Bool
  listeningSource : Point
  startTime : Option Int
  songDuration : Option Int

/-- The in-process state of the part_000 RoomManager: the persisted rooms
store plus the `sockets` (clientId to live socket) and `intervals`
(roomId to timer handle) Maps, viewed as key sets. -/
structure ManagerState where
  rooms : List (String × Room)
  sockets : List String
  intervals : List String

/-- `initRoom` of part_000. -/
def initRoom : Room :=
  { clients := []
    spatialEnabled := false
    songEnabled := false
    listeningSource := ⟨0, 0⟩
    startTime := none
    songDuration := none }

/-- `DEFAULT_SONG_DURATION` of part_000 (3 minutes in ms). -/
def DEFAULT_SONG_DURATION : Int := 180000

/-- `playAudio(roomId, enable, duration)` of part_000, at server time `now`:
sets songEnabled, takes the duration argument when it is a positive number
and otherwise keeps `room.songDuration || DEFAULT_SONG_DURATION`, and sets
startTime to `Date.now()` when enabling, `null` otherwise.  Returns the
manager state and the returned `enable` value (`none` when the room does
not exist, the early return). -/
def playAudio (st : ManagerState) (roomId : String) (enable : Bool)
    (duration : Option Int) (now : Int) : ManagerState × Option Bool :=
  match objGet st.rooms roomId with
  | none => (st, none)
  | some room =>
      let room :=
        { room with
          songEnabled := enable
          songDuration := some (match duration with
            | some d => if 0 < d then d else jsOrOpt room.songDuration DEFAULT_SONG_DURATION
            | none => jsOrOpt room.songDuration DEFAULT_SONG_DURATION)
          startTime := if enable then some now else none }
      ({ st with rooms := objSet st.rooms roomId room }, some enable)

/-- `pauseAudio(roomId)` of part_000: only flips songEnabled to false and
saves the room.  It does not touch startTime or record any elapsed value. -/
def pauseAudio (st : ManagerState) (roomId : String) :
    ManagerState × Option Bool :=
  match objGet st.rooms roomId with
  | none => (st, none)
  | some room =>
      ({ st with rooms := objSet st.rooms roomId { room with songEnabled := false } },
       some false)

/-- `_getElapsedTime(room)` of part_000, at server time `now`: 0 unless the
song is enabled and startTime is truthy, else the elapsed wall-clock delta
capped at `room.songDuration || 0`. -/
def getElapsedTime (room : Room) (now : Int) : Int :=
  if room.songEnabled && jsTruthyTime room.startTime then
    min (now - room.startTime.getD 0) (jsOrOpt room.songDuration 0)
  else 0

/-- The state record `getRoomAudioState` returns. -/
structure AudioState where
  songEnabled : Bool
  elapsedTime : Int
  songDuration : Int

/-- `getRoomAudioState(roomId)` of part_000 (given the looked-up room). -/
def getRoomAudioState (room : Option Room) (now : Int) : AudioState :=
  match room with
  | none =>
      { songEnabled := false, elapsedTime := 0, songDuration := DEFAULT_SONG_DURATION }
  | some room =>
      { songEnabled := room.songEnabled
        elapsedTime := getElapsedTime room now
        songDuration := jsOrOpt room.songDuration DEFAULT_SONG_DURATION }

/-- `_calculateGain(distance)` of part_000: maxDistance 100, minGain 0.05,
quadratic falloff `1 - (distance/100)^2`, floored by `Math.max`. -/
noncomputable def calculateGain (distance : Real) : Real :=
  let maxDistance : Real := 100
  let minGain : Real := 0.05
  let gain := 1 - (distance / maxDistance) ^ 2
  max minGain gain

/-- `updateClientPositions(room)` of part_000: client `i` of `N` (in
insertion order) is placed at angle `2 pi i / N` on the circle of radius
50. -/
noncomputable def updateClientPositions (room : Room) : Room :=
  let clients := room.clients
  let radius : Real := 50
  { room with
    clients := mapIdxFrom (fun index p =>
      (p.1, { p.2 with position :=
        ⟨Real.cos (2 * Real.pi * index / clients.length) * radius,
         Real.sin (2 * Real.pi * index / clients.length) * radius⟩ })) clients 0 }

/-- The payload `broadcastSpatialUpdate` of part_000 sends: note the gains
are computed from each client position and the source with no check of
`room.spatialEnabled`. -/
structure SpatialPayload where
  source : Point
  gains : List (String × Real)
  enabled : Bool
  positions : List (String × Point)

/-- The payload built inside `broadcastSpatialUpdate(room)` of part_000. -/
noncomputable def spatialUpdatePayload (room : Room) : SpatialPayload :=
  let source := room.listeningSource
  { source := source
    gains := room.clients.map (fun p =>
      (p.1, calculateGain (pointDistance p.2.position source)))
    enabled := room.spatialEnabled
    positions := room.clients.map (fun p => (p.1, p.2.position)) }

/-- `broadcastSpatialUpdate(room)` of part_000: one payload is built, then
emitted to every room member that has a live socket. -/
noncomputable def broadcastSpatialUpdate (sockets : List String) (room : Room) :
    List (String × SpatialPayload) :=
  let payload := spatialUpdatePayload room
  (room.clients.map (fun p => p.1)).filterMap (fun cid =>
    if cid ∈ sockets then some (cid, payload) else none)

/-- `addClient({roomId, username, clientId, socket})` of part_000: creates
the room on demand, deletes every existing member with the same username
from `room.clients` (the sockets Map is NOT touched for the evicted ids in
this iteration), inserts the new client, registers its socket, recomputes
positions and saves.  The trailing spatial-update broadcast and
spatial-toggle emit carry no state and are modelled separately. -/
noncomputable def addClient (st : ManagerState) (roomId username clientId : String) :
    ManagerState :=
  let room := (objGet st.rooms roomId).getD initRoom
  let room := { room with clients := room.clients.filter (fun p => p.2.username ≠ username) }
  let room := { room with clients := objSet room.clients clientId ⟨⟨0, 0⟩, username⟩ }
  let sockets := keySet st.sockets clientId
  let room := updateClientPositions room
  { st with rooms := objSet st.rooms roomId room, sockets := sockets }

/-- The part of `stopSpatialAudioLoop(roomId, room)` of part_000 that builds
its final payload: the source is reset to the origin and every member gets
gain 1. -/
def stopSpatialAudioLoopPayload (room : Room) : SpatialPayload :=
  let room := { room with listeningSource := ⟨0, 0⟩ }
  { source := room.listeningSource
    gains := room.clients.map (fun p => (p.1, 1))
    enabled := false
    positions := room.clients.map (fun p => (p.1, p.2.position)) }

/-- `removeClient({roomId, clientId})` of part_000: no-op on a missing room;
otherwise deletes the membership and the socket, then either tears the room
down (`deleteRoom`: clearInterval, drop the interval handle, delete the
persisted state) when it became empty, or recomputes positions, saves and
re-broadcasts the spatial payload.  The second component is the list of
spatial-update emissions. -/
noncomputable def removeClient (st : ManagerState) (roomId clientId : String) :
    ManagerState × List (String × SpatialPayload) :=
  match objGet st.rooms roomId with
  | none => (st, [])
  | some room =>
      let room := { room with clients := objDelete room.clients clientId }
      let sockets := keyDelete st.sockets clientId
      if room.clients.length = 0 then
        ({ rooms := objDelete st.rooms roomId
           sockets := sockets
           intervals := keyDelete st.intervals roomId }, [])
      else
        let room := updateClientPositions room
        ({ st with rooms := objSet st.rooms roomId room, sockets := sockets },
         broadcastSpatialUpdate sockets room)

end PartZero

namespace PartOneB

/-- A client entry of the second part_001 RoomManager:
`{ position, username, joinedAt }`. -/
structure Client where
  position : Point
  username : String
  joinedAt : Int

/-- The room object persisted by the second part_001 RoomManager
(`initRoom`). -/
structure Room where
  clients : List (String × Client)
  spatialEnabled : Bool
  songEnabled : Bool
  savedElapsedTime : Int
  startTime : Option Int
  songDuration : Int
  listeningSource : Point
  createdAt : Int
  lastUpdated : Int

/-- The in-process state of the second part_001 RoomManager. -/
structure ManagerState where
  rooms : List (String × Room)
  sockets : List String
  intervals : List String

/-- `initRoom(roomId)` of the second part_001 RoomManager, at server time
`now`. -/
def initRoom (now : Int) : Room :=
  { clients := []
    spatialEnabled := false
    songEnabled := false
    savedElapsedTime := 0
    startTime := none
    songDuration := 0
    listeningSource := ⟨0, 0⟩
    createdAt := now
    lastUpdated := now }

/-- `_getElapsedTime(room)` of the second part_001 RoomManager, at server
time `now`: while the song is enabled and startTime truthy, the wall-clock
delta capped at songDuration; otherwise `room.savedElapsedTime || 0`. -/
def getElapsedTime (room : Room) (now : Int) : Int :=
  if room.songEnabled && jsTruthyTime room.startTime then
    min (now - room.startTime.getD 0) room.songDuration
  else jsOrInt room.savedElapsedTime 0

/-- `_getElapsedTimeSync(room)` of the second part_001 RoomManager: the
synchronous twin of `_getElapsedTime`, with the identical body. -/
def getElapsedTimeSync (room : Room) (now : Int) : Int :=
  if room.songEnabled && jsTruthyTime room.startTime then
    min (now - room.startTime.getD 0) room.songDuration
  else jsOrInt room.savedElapsedTime 0

/-- `playAudio(roomId, enable, elapsedTime, songDuration)` of the second
part_001 RoomManager, at the room level, at server time `now` (the trailing
saveRoom, which also stamps lastUpdated, and the broadcast are layered
outside this transition).  Note the order of the source: songEnabled is
assigned from `enable` first; in the disable branch `_getElapsedTime` is
therefore evaluated on a room whose songEnabled is already false. -/
def playAudio (room : Room) (enable : Bool) (elapsedTime : Option Int)
    (songDuration : Option Int) (now : Int) : Room :=
  let room := { room with songEnabled := enable }
  let room := match songDuration with
    | some d => if d ≠ 0 then { room with songDuration := d } else room
    | none => room
  if enable then
    let resumeFrom := elapsedTime.getD room.savedElapsedTime
    { room with startTime := some (now - resumeFrom), savedElapsedTime := 0 }
  else
    let elapsed := getElapsedTime room now
    { room with savedElapsedTime := elapsed, startTime := none }

/-- `pauseAudio(roomId)` of the second part_001 RoomManager, at the room
level, at server time `now`: songEnabled is set to false first, then
`_getElapsedTime` is read (on the already-disabled room) into
savedElapsedTime, and startTime is cleared; the trailing saveRoom and
broadcast are layered outside this transition. -/
def pauseAudio (room : Room) (now : Int) : Room :=
  let room := { room with songEnabled := false }
  let elapsed := getElapsedTime room now
  { room with savedElapsedTime := elapsed, startTime := none }

/-- `_calculateGain(distance)` of the second part_001 RoomManager:
maxDistance is the RADIUS constant imported from src/constants (not part of
the staged sources, so kept as a parameter), minGain 0.1; distances at or
beyond maxDistance return the floor, closer ones the linear falloff floored
by `Math.max`. -/
noncomputable def calculateGain (RADIUS : Real) (distance : Real) : Real :=
  let maxDistance := RADIUS
  let minGain : Real := 0.1
  if distance ≥ maxDistance then minGain
  else
    let gain := 1 - distance / maxDistance
    max gain minGain

/-- `updateClientPositions(room)` of the second part_001 RoomManager:
client `i` of `N` at angle `2 pi i / N` on the circle of radius RADIUS. -/
noncomputable def updateClientPositions (RADIUS : Real) (room : Room) : Room :=
  let clientEntries := room.clients
  { room with
    clients := mapIdxFrom (fun index p =>
      (p.1, { p.2 with position :=
        ⟨Real.cos (index * 2 * Real.pi / clientEntries.length) * RADIUS,
         Real.sin (index * 2 * Real.pi / clientEntries.length) * RADIUS⟩ })) clientEntries 0 }

/-- The payload `broadcastSpatialUpdate` of the second part_001 RoomManager
sends on every spatial change. -/
structure SpatialPayload where
  source : Point
  gains : List (String × Real)
  enabled : Bool
  songEnabled : Bool
  elapsedTime : Int
  songDuration : Int
  startTime : Option Int
  serverTime : Int
  positions : List (String × Point)

/-- The payload built inside `broadcastSpatialUpdate(room)` of the second
part_001 RoomManager: with spatialEnabled each gain comes from the distance
to the source, otherwise every gain is the literal 1.0. -/
noncomputable def spatialUpdatePayload (RADIUS : Real) (room : Room) (now : Int) :
    SpatialPayload :=
  let source := room.listeningSource
  { source := source
    gains := room.clients.map (fun p =>
      if room.spatialEnabled then
        (p.1, calculateGain RADIUS (pointDistance p.2.position source))
      else (p.1, 1.0))
    enabled := room.spatialEnabled
    songEnabled := room.songEnabled
    elapsedTime := getElapsedTime room now
    songDuration := room.songDuration
    startTime := room.startTime
    serverTime := now
    positions := room.clients.map (fun p => (p.1, p.2.position)) }

/-- `broadcastSpatialUpdate(room)` of the second part_001 RoomManager: the
payload goes to every member with a live socket. -/
noncomputable def broadcastSpatialUpdate (RADIUS : Real) (sockets : List String)
    (room : Room) (now : Int) : List (String × SpatialPayload) :=
  let payload := spatialUpdatePayload RADIUS room now
  (room.clients.map (fun p => p.1)).filterMap (fun cid =>
    if cid ∈ sockets then some (cid, payload) else none)

/-- `addClient({roomId, username, clientId, socket})` of the second
part_001 RoomManager: creates the room on demand, deletes every member with
the same username from both `room.clients` and the sockets Map, inserts the
new client with `joinedAt`, registers its socket, recomputes positions and
saves. -/
noncomputable def addClient (RADIUS : Real) (st : ManagerState)
    (roomId username clientId : String) (now : Int) : ManagerState :=
  let room := (objGet st.rooms roomId).getD (initRoom now)
  let evicted := (room.clients.filter (fun p => p.2.username = username)).map (fun p => p.1)
  let room := { room with clients := room.clients.filter (fun p => p.2.username ≠ username) }
  let sockets := evicted.foldl keyDelete st.sockets
  let room := { room with clients := objSet room.clients clientId ⟨⟨0, 0⟩, username, now⟩ }
  let sockets := keySet sockets clientId
  let room := updateClientPositions RADIUS room
  { st with rooms := objSet st.rooms roomId room, sockets := sockets }

end PartOneB

namespace PartTwoA

/-- An HLS segment parsed from the playlist by `parseM3U8Segments` of the
first part_002 RoomManager: `{ file, duration, startTime, endTime }`, with
startTime/endTime the cumulative offsets in ms. -/
structure Segment where
  file : String
  duration : Int
  startTime : Int
  endTime : Int
deriving DecidableEq

/-- The value cached in `this.hlsStreams` by `processAudioToHLS`. -/
structure HlsData where
  playlistUrl : String
  duration : Int
  segments : List Segment

/-- A client entry of the first part_002 RoomManager:
`{ position, username, joinedAt, lateJoiner }`. -/
structure Client where
  position : Point
  username : String
  joinedAt : Int
  lateJoiner : Bool

/-- The room object persisted by the first part_002 RoomManager
(`initRoom`).  The object literal in `initRoom` has no `roomId` property
and no code path ever assigns one, so a read of `room.roomId` yields
`undefined`; the field is carried here as an Option that `initRoom` sets to
`none` and nothing ever sets to `some`. -/
structure Room where
  clients : List (String × Client)
  spatialEnabled : Bool
  songEnabled : Bool
  savedElapsedTime : Int
  startTime : Option Int
  songDuration : Int
  listeningSource : Point
  hlsPlaylistUrl : Option String
  audioUrl : Option String
  createdAt : Int
  lastUpdated : Int
  roomId : Option String

/-- The in-process state of the first part_002 RoomManager: the persisted
rooms plus the sockets and intervals Maps and the per-room `hlsStreams`
cache (whose keys are the real room ids passed to `playAudio`). -/
structure ManagerState where
  rooms : List (String × Room)
  sockets : List String
  intervals : List String
  hlsStreams : List (String × HlsData)

/-- `initRoom(roomId)` of the first part_002 RoomManager, at server time
`now`. -/
def initRoom (now : Int) : Room :=
  { clients := []
    spatialEnabled := false
    songEnabled := false
    savedElapsedTime := 0
    startTime := none
    songDuration := 0
    listeningSource := ⟨0, 0⟩
    hlsPlaylistUrl := none
    audioUrl := none
    createdAt := now
    lastUpdated := now
    roomId := none }

/-- `_getElapsedTimeSync(room)` of the first part_002 RoomManager. -/
def getElapsedTimeSync (room : Room) (now : Int) : Int :=
  if room.songEnabled && jsTruthyTime room.startTime then
    min (now - room.startTime.getD 0) room.songDuration
  else jsOrInt room.savedElapsedTime 0

/-- `getSegmentForTime(roomId, elapsedTime)` of the first part_002
RoomManager: looks the room up in `hlsStreams` (a Map keyed by the real
room-id strings, so an `undefined` key finds nothing) and returns the first
segment with `startTime <= elapsedTime < endTime`. -/
def getSegmentForTime (hlsStreams : List (String × HlsData))
    (roomId : Option String) (elapsedTime : Int) : Option Segment :=
  match roomId.bind (objGet hlsStreams) with
  | none => none
  | some hlsData =>
      hlsData.segments.find? (fun segment =>
        decide (elapsedTime ≥ segment.startTime) && decide (elapsedTime < segment.endTime))

/-- The payload of the `late-joiner-sync` unicast. -/
structure LateJoinerPayload where
  playlistUrl : Option String
  audioUrl : Option String
  currentSegment : Segment
  segmentOffset : Int
  totalElapsedTime : Int
  serverTime : Int
  songDuration : Int
  spatialEnabled : Bool
  sourcePosition : Point
  userPositions : List (String × Point)

/-- `sendLateJoinerSync(clientId, room)` of the first part_002 RoomManager,
at server time `now`: nothing is sent without a live socket; the current
segment is looked up under `room.roomId` (which no code path ever sets,
see `Room`); with no segment found it warns and returns without emitting;
otherwise it unicasts the segment, the offset into it and the snapshot to
the joining client alone. -/
def sendLateJoinerSync (st : ManagerState) (clientId : String) (room : Room)
    (now : Int) : List (String × LateJoinerPayload) :=
  if clientId ∈ st.sockets then
    let currentElapsedTime := getElapsedTimeSync room now
    match getSegmentForTime st.hlsStreams room.roomId currentElapsedTime with
    | none => []
    | some currentSegment =>
        [(clientId,
          { playlistUrl := room.hlsPlaylistUrl
            audioUrl := room.audioUrl
            currentSegment := currentSegment
            segmentOffset := currentElapsedTime - currentSegment.startTime
            totalElapsedTime := currentElapsedTime
            serverTime := now
            songDuration := room.songDuration
            spatialEnabled := room.spatialEnabled
            sourcePosition := room.listeningSource
            userPositions := room.clients.map (fun p => (p.1, p.2.position)) })]
  else []

/-- `updateClientPositions(room)` of the first part_002 RoomManager:
client `i` of `N` at angle `2 pi i / N` on the circle of radius RADIUS. -/
noncomputable def updateClientPositions (RADIUS : Real) (room : Room) : Room :=
  let clientEntries := room.clients
  { room with
    clients := mapIdxFrom (fun index p =>
      (p.1, { p.2 with position :=
        ⟨Real.cos (index * 2 * Real.pi / clientEntries.length) * RADIUS,
         Real.sin (index * 2 * Real.pi / clientEntries.length) * RADIUS⟩ })) clientEntries 0 }

/-- `addClient({roomId, username, clientId, socket})` of the first part_002
RoomManager, at server time `now`: creates the room on demand, evicts same-
username members (clients and sockets), flags the newcomer a late joiner
when the song is enabled, registers the socket, recomputes positions and
saves; when the newcomer is a late joiner and the room has an HLS playlist
it runs `sendLateJoinerSync`.  Returns the new state, the saved room and
the late-joiner-sync emissions (the initial-sync and spatial-update
emissions carry no segment data and are left out of the model). -/
noncomputable def addClient (RADIUS : Real) (st : ManagerState)
    (roomId username clientId : String) (now : Int) :
    ManagerState × Room × List (String × LateJoinerPayload) :=
  let room := (objGet st.rooms roomId).getD (initRoom now)
  let evicted := (room.clients.filter (fun p => p.2.username = username)).map (fun p => p.1)
  let room := { room with clients := room.clients.filter (fun p => p.2.username ≠ username) }
  let sockets := evicted.foldl keyDelete st.sockets
  let isLateJoiner := room.songEnabled
  let newClient : Client := ⟨⟨0, 0⟩, username, now, isLateJoiner⟩
  let room := { room with clients := objSet room.clients clientId newClient }
  let sockets := keySet sockets clientId
  let room := updateClientPositions RADIUS room
  let st := { st with rooms := objSet st.rooms roomId room, sockets := sockets }
  let emits := if isLateJoiner && jsTruthyStr room.hlsPlaylistUrl then
      sendLateJoinerSync st clientId room now
    else []
  (st, room, emits)

end PartTwoA

namespace PartTwoB

/-- A song entry of the second part_002 RoomManager
(`room.songs[songId]`). -/
structure Song where
  songUrl : String
  hlsUrl : String
  uploadedAt : Int
  duration : Int

/-- A client entry of the second part_002 RoomManager. -/
structure Client where
  username : String
  position : Point
  joinedAt : Int
  lastSyncTime : Int
  latency : Int

/-- The room object persisted by the second part_002 RoomManager
(`initRoom`). -/
structure Room where
  clients : List (String × Client)
  songs : List (String × Song)
  currentSong : Option String
  songElapsedTime : Int
  songStartTime : Option Int
  isPlaying : Bool
  playbackStartTime : Option Int
  serverTime : Option Int
  soundSource : Point
  spatialEnabled : Bool
  hlsUrl : Option String
  playbackRate : Real

/-- `_calculateCurrentPlaybackTime(room)` of the second part_002
RoomManager, at server time `now`: the frozen `songElapsedTime || 0` while
not playing or before the buffered playbackStartTime; once past it, the
frozen value plus the wall-clock delta, with no cap at the song
duration. -/
def calculateCurrentPlaybackTime (room : Room) (now : Int) : Int :=
  if !(room.isPlaying && jsTruthyTime room.playbackStartTime) then
    jsOrInt room.songElapsedTime 0
  else if now < room.playbackStartTime.getD 0 then
    jsOrInt room.songElapsedTime 0
  else
    jsOrInt room.songElapsedTime 0 + (now - room.playbackStartTime.getD 0)

/-- `playSong(roomId, songId)` of the second part_002 RoomManager at the
room level, at server time `now`: fails on a missing song, else starts the
song with a 2 second sync buffer (`playbackStartTime = now + 2000`). -/
def playSong (room : Room) (songId : String) (now : Int) : Except String Room :=
  match objGet room.songs songId with
  | none => Except.error "Song not found"
  | some song =>
      Except.ok { room with
        currentSong := some songId
        isPlaying := true
        songElapsedTime := 0
        songStartTime := some now
        playbackStartTime := some (now + 2000)
        hlsUrl := some song.hlsUrl
        serverTime := some now }

/-- `_calculateGain(distance)` of the second part_002 RoomManager:
maxDistance RADIUS, minGain 0.5, falloff `1 - (d/R)(1 - minGain)` floored
by `Math.max`. -/
noncomputable def calculateGain (RADIUS : Real) (distance : Real) : Real :=
  let maxDistance := RADIUS
  let minGain : Real := 0.5
  let gain := 1 - (distance / maxDistance) * (1 - minGain)
  max gain minGain

end PartTwoB

namespace Sockets

/-- The payload broadcast by the play-audio handler of
src/src/sockets/socketHandlers.js (first document). -/
structure PlayAudioPayload where
  serverTimeToExecute : Option Int
  songStatus : Option Bool
  seekerPosition : Option Int
  elapsedTime : Int
  songDuration : Int

/-- The payload broadcast by the pause-audio handler. -/
structure PauseAudioPayload where
  serverTimeToExecute : Option Int
  songStatus : Option Bool

/-- The play-audio socket handler of src/src/sockets/socketHandlers.js
(first document), driving the part_000 RoomManager, at server time `now`.
The caller-supplied `serverTimeToExecute` is read and forwarded in the
broadcast payload verbatim; the handler itself runs `playAudio`, reads the
room audio state and broadcasts with no scheduling of any kind: no delay
is computed from `serverTimeToExecute` and nothing is deferred. -/
def handlePlayAudio (st : PartZero.ManagerState) (roomId : Option String)
    (serverTimeToExecute seekerPosition duration : Option Int) (now : Int) :
    PartZero.ManagerState × List PlayAudioPayload :=
  match roomId with
  | none => (st, [])
  | some roomId =>
      let room := objGet st.rooms roomId
      let fallbackDuration : Int := match duration with
        | some d =>
            if 0 < d then d
            else jsOrOpt (room.bind PartZero.Room.songDuration) PartZero.DEFAULT_SONG_DURATION
        | none => jsOrOpt (room.bind PartZero.Room.songDuration) PartZero.DEFAULT_SONG_DURATION
      let result := PartZero.playAudio st roomId true (some fallbackDuration) now
      let audioState := PartZero.getRoomAudioState (objGet result.1.rooms roomId) now
      (result.1,
       [{ serverTimeToExecute := serverTimeToExecute
          songStatus := result.2
          seekerPosition := seekerPosition
          elapsedTime := audioState.elapsedTime
          songDuration := audioState.songDuration }])

/-- The pause-audio socket handler of src/src/sockets/socketHandlers.js
(first document): runs `pauseAudio` immediately and broadcasts, forwarding
`serverTimeToExecute` verbatim with no delay computation or deferral. -/
def handlePauseAudio (st : PartZero.ManagerState) (roomId : Option String)
    (serverTimeToExecute : Option Int) :
    PartZero.ManagerState × List PauseAudioPayload :=
  match roomId with
  | none => (st, [])
  | some roomId =>
      let result := PartZero.pauseAudio st roomId
      (result.1,
       [{ serverTimeToExecute := serverTimeToExecute, songStatus := result.2 }])

/-- The `ntp-response` payload. -/
structure NtpResponse where
  t0 : Int
  t1 : Int
  t2 : Int

/-- The ntp-request socket handler of src/src/sockets/socketHandlers.js:
`t1` is `Date.now()` captured at receipt of the request; the NTP callback
reads `Date.now()` into an unused local (`t2cb` here), answers with the NTP
time when the query succeeded and with the receipt-time `t1` on error
(`ntpResult = none`), and stamps the response `t2` with a fresh
`Date.now()` read (`emitTime`).  The handler body touches the manager
state nowhere, so the state passes through unchanged, and exactly one
response is emitted per request. -/
def handleNtpRequest (st : PartZero.ManagerState) (t0 : Int) (t1 : Int)
    (ntpResult : Option Int) (t2cb : Int) (emitTime : Int) :
    PartZero.ManagerState × List NtpResponse :=
  let _ := t2cb
  (st, [{ t0 := t0
          t1 := match ntpResult with
            | none => t1
            | some ntpTime => ntpTime
          t2 := emitTime }])

end Sockets

/-! Concrete states used by the claim theorems. -/

/-- The mutual-exclusion invariant of the spec data model, for the second
part_001 RoomManager: playing rooms carry a startTime, paused and stopped
rooms carry none. -/
def playbackInv (room : PartOneB.Room) : Prop :=
  (room.songEnabled = true → room.startTime ≠ none) ∧
  (room.songEnabled = false → room.startTime = none)

/-- A part_002 (second document) room holding one 3-minute song, not yet
playing. -/
def songRoomB : PartTwoB.Room :=
  { clients := []
    songs := [("s", { songUrl := "https://example.com/a.mp3", hlsUrl := "/hls/s/playlist.m3u8",
                      uploadedAt := 0, duration := 180000 })]
    currentSong := none
    songElapsedTime := 0
    songStartTime := none
    isPlaying := false
    playbackStartTime := none
    serverTime := none
    soundSource := ⟨0, 0⟩
    spatialEnabled := false
    hlsUrl := none
    playbackRate := 1 }

/-- A second part_001 room that started playing a 3-minute song from 0 at
server time 1000. -/
def pausePlayRoom0 : PartOneB.Room :=
  PartOneB.playAudio (PartOneB.initRoom 1000) true (some 0) (some 180000) 1000

/-- The same room paused at server time 61000 (one minute in). -/
def pausePlayRoom1 : PartOneB.Room := PartOneB.pauseAudio pausePlayRoom0 61000

/-- The same room resumed with no explicit resume point at time 61000. -/
def pausePlayRoom2 : PartOneB.Room := PartOneB.playAudio pausePlayRoom1 true none none 61000

/-- A part_000 room with a 3-minute song loaded, currently stopped. -/
def schedRoom : PartZero.Room := { PartZero.initRoom with songDuration := some 180000 }

/-- A part_000 manager with one member of that room connected. -/
def schedState : PartZero.ManagerState :=
  { rooms := [("1", schedRoom)], sockets := ["c1"], intervals := [] }

/-- The play-audio handler applied to `schedState` at server time 0 with a
caller-supplied execution timestamp 5000 ms in the future. -/
def schedResult : PartZero.ManagerState × List Sockets.PlayAudioPayload :=
  Sockets.handlePlayAudio schedState (some "1") (some 5000) none none 0

/-- A part_000 manager whose room 1 is freshly created. -/
def invState0 : PartZero.ManagerState :=
  { rooms := [("1", PartZero.initRoom)], sockets := [], intervals := [] }

/-- Room 1 started playing at server time 1000. -/
def invState1 : PartZero.ManagerState :=
  (PartZero.playAudio invState0 "1" true (some 180000) 1000).1

/-- Room 1 then paused through the part_000 `pauseAudio`. -/
def invState2 : PartZero.ManagerState := (PartZero.pauseAudio invState1 "1").1

/-- First HLS segment of a 16-second track (8-second segments). -/
def lateSeg0 : PartTwoA.Segment :=
  { file := "segment_000.ts", duration := 8000, startTime := 0, endTime := 8000 }

/-- Second HLS segment. -/
def lateSeg1 : PartTwoA.Segment :=
  { file := "segment_001.ts", duration := 8000, startTime := 8000, endTime := 16000 }

/-- The cached HLS data for room 42. -/
def lateHls : PartTwoA.HlsData :=
  { playlistUrl := "/hls/42/playlist.m3u8", duration := 16000, segments := [lateSeg0, lateSeg1] }

/-- Room 42 of the first part_002 RoomManager, playing its HLS track since
server time 1000. -/
def lateRoom : PartTwoA.Room :=
  { PartTwoA.initRoom 0 with
    songEnabled := true
    startTime := some 1000
    songDuration := 16000
    hlsPlaylistUrl := some "/hls/42/playlist.m3u8"
    audioUrl := some "https://example.com/a.mp3" }

/-- The first part_002 manager holding room 42 and its HLS cache, keyed by
the real room id. -/
def lateMgr : PartTwoA.ManagerState :=
  { rooms := [("42", lateRoom)], sockets := [], intervals := [], hlsStreams := [("42", lateHls)] }

/-- A part_000 manager whose room 1 holds the member A named alice, with a
live socket for A. -/
def evictState : PartZero.ManagerState :=
  { rooms := [("1", { PartZero.initRoom with clients := [("A", ⟨⟨0, 0⟩, "alice"⟩)] })]
    sockets := ["A"]
    intervals := [] }

/-- The state after client B joins room 1 with the same username alice. -/
noncomputable def evictState1 : PartZero.ManagerState :=
  PartZero.addClient evictState "1" "alice" "B"

/-- A part_000 room with spatial mode disabled and one member standing at
(50, 0), the position `updateClientPositions` assigns a single member. -/
def gainRoom : PartZero.Room :=
  { PartZero.initRoom with clients := [("c1", ⟨⟨50, 0⟩, "alice"⟩)] }

/-! Lemmas about the JavaScript object and Map embeddings. -/

theorem objGet_objSet_self {α : Type} (l : List (String × α)) (k : String) (v : α) :
    objGet (objSet l k v) k = some v := by
  unfold objSet
  split
  · rename_i h
    induction l with
    | nil => simp at h
    | cons p t ih =>
        by_cases hp : p.1 = k
        · simp [objGet, List.find?, hp]
        · simp only [List.any_cons, hp] at h
          simp only [List.map_cons, if_neg hp]
          have := ih (by simpa [hp] using h)
          simpa [objGet, List.find?, hp] using this
  · rename_i h
    induction l with
    | nil => simp [objGet]
    | cons p t ih =>
        simp only [List.any_cons, Bool.or_eq_true, not_or] at h
        have hp : ¬ p.1 = k := by simpa using h.1
        simp only [List.cons_append]
        have := ih (by simpa using h.2)
        simpa [objGet, List.find?, hp] using this

theorem objGet_objDelete_self {α : Type} (l : List (String × α)) (k : String) :
    objGet (objDelete l k) k = none := by
  unfold objGet objDelete
  have h : (l.filter (fun p => decide (p.1 ≠ k))).find? (fun p => decide (p.1 = k)) = none := by
    rw [List.find?_eq_none]
    intro p hp
    have := List.of_mem_filter hp
    simpa using this
  rw [h]
  rfl

theorem not_mem_keyDelete_self (l : List String) (k : String) :
    k ∉ keyDelete l k := by
  intro h
  have := List.of_mem_filter h
  simp at this

theorem mem_of_mem_keyDelete {l : List String} {a k : String} (h : a ∈ keyDelete l k) :
    a ∈ l := List.mem_of_mem_filter h

theorem mem_keyDelete_of_ne {l : List String} {a k : String} (ha : a ∈ l) (hne : a ≠ k) :
    a ∈ keyDelete l k := by
  exact List.mem_filter.mpr ⟨ha, by simpa using hne⟩

theorem mem_of_mem_keySet {l : List String} {a k : String} (h : a ∈ keySet l k)
    (hne : a ≠ k) : a ∈ l := by
  unfold keySet at h
  split at h
  · exact h
  · rcases List.mem_append.mp h with h' | h'
    · exact h'
    · simp at h'
      exact absurd h' hne

theorem not_mem_foldl_keyDelete_of_not_mem {a : String} :
    ∀ (ev l : List String), a ∉ l → a ∉ ev.foldl keyDelete l
  | [], _, h => h
  | e :: t, l, h =>
      not_mem_foldl_keyDelete_of_not_mem t (keyDelete l e)
        (fun hm => h (mem_of_mem_keyDelete hm))

theorem not_mem_foldl_keyDelete {a : String} :
    ∀ (ev l : List String), a ∈ ev → a ∉ ev.foldl keyDelete l
  | e :: t, l, ha => by
      rcases List.mem_cons.mp ha with rfl | hat
      · exact not_mem_foldl_keyDelete_of_not_mem t (keyDelete l a)
          (not_mem_keyDelete_self l a)
      · exact not_mem_foldl_keyDelete t (keyDelete l e) hat

theorem mapIdxFrom_length {α : Type} (f : Nat → α → α) :
    ∀ (l : List α) (i : Nat), (mapIdxFrom f l i).length = l.length
  | [], _ => rfl
  | _ :: as, i => by
      simp only [mapIdxFrom, List.length_cons, mapIdxFrom_length f as (i + 1)]

theorem mapIdxFrom_filter_map_fst {α : Type} (f : Nat → (String × α) → (String × α))
    (q : (String × α) → Bool)
    (hf : ∀ i p, (f i p).1 = p.1 ∧ q (f i p) = q p) :
    ∀ (l : List (String × α)) (i : Nat),
      ((mapIdxFrom f l i).filter q).map Prod.fst = (l.filter q).map Prod.fst
  | [], _ => rfl
  | p :: t, i => by
      simp only [mapIdxFrom, List.filter_cons, (hf i p).2]
      by_cases hq : q p
      · simp only [hq, if_true, List.map_cons, (hf i p).1,
          mapIdxFrom_filter_map_fst f q hf t (i + 1)]
      · simp only [hq, if_false, Bool.false_eq_true,
          mapIdxFrom_filter_map_fst f q hf t (i + 1)]

theorem filter_append_eviction {α : Type} (name : α → String) (l : List (String × α))
    (u cid : String) (v : α) (hv : name v = u) :
    (((l.filter (fun p => name p.2 ≠ u)) ++ [(cid, v)]).filter
      (fun p => name p.2 = u)).map Prod.fst = [cid] := by
  rw [List.filter_append]
  have h1 : (l.filter (fun p => name p.2 ≠ u)).filter (fun p => name p.2 = u) = [] := by
    rw [List.filter_eq_nil_iff]
    intro p hp
    have := List.of_mem_filter hp
    simpa using this
  simp [h1, hv]

theorem eviction_core {α : Type} (name : α → String) (l : List (String × α))
    (u cid : String) (v : α) (hv : name v = u) (hcid : cid ∉ l.map Prod.fst) :
    ((objSet (l.filter (fun p => name p.2 ≠ u)) cid v).filter
      (fun p => name p.2 = u)).map Prod.fst = [cid] ∧
    (objSet (l.filter (fun p => name p.2 ≠ u)) cid v).length =
      (l.filter (fun p => name p.2 ≠ u)).length + 1 := by
  have hany : ((l.filter (fun p => name p.2 ≠ u)).any (fun p => p.1 = cid)) = false := by
    cases h : (l.filter (fun p => name p.2 ≠ u)).any (fun p => p.1 = cid) with
    | false => rfl
    | true =>
        obtain ⟨p, hp, hpc⟩ := List.any_eq_true.mp h
        exact absurd (List.mem_map.mpr
          ⟨p, List.mem_of_mem_filter hp, by simpa using hpc⟩) hcid
  constructor
  · unfold objSet
    rw [hany]
    simp only [Bool.false_eq_true, if_false]
    exact filter_append_eviction name l u cid v hv
  · unfold objSet
    rw [hany]
    simp

theorem updateClientPositionsB_filter_map_fst (R : Real) (room : PartOneB.Room)
    (u : String) :
    (((PartOneB.updateClientPositions R room).clients.filter
      (fun p => p.2.username = u)).map Prod.fst) =
    ((room.clients.filter (fun p => p.2.username = u)).map Prod.fst) := by
  refine mapIdxFrom_filter_map_fst _ _ ?_ room.clients 0
  exact fun _ _ => ⟨rfl, rfl⟩

theorem updateClientPositionsB_length (R : Real) (room : PartOneB.Room) :
    (PartOneB.updateClientPositions R room).clients.length = room.clients.length :=
  mapIdxFrom_length _ room.clients 0

theorem updateClientPositionsZ_filter_map_fst (room : PartZero.Room)
    (u : String) :
    (((PartZero.updateClientPositions room).clients.filter
      (fun p => p.2.username = u)).map Prod.fst) =
    ((room.clients.filter (fun p => p.2.username = u)).map Prod.fst) := by
  refine mapIdxFrom_filter_map_fst _ _ ?_ room.clients 0
  exact fun _ _ => ⟨rfl, rfl⟩

theorem updateClientPositionsZ_length (room : PartZero.Room) :
    (PartZero.updateClientPositions room).clients.length = room.clients.length :=
  mapIdxFrom_length _ room.clients 0

/-! The claim theorems. -/

/-- C1 (amended): the part_001 elapsed reads return
min(now - startTime, songDuration) while playing, so they never exceed the
total duration, and the frozen savedElapsedTime otherwise; the async
`_getElapsedTime` agrees with `_getElapsedTimeSync`; but the part_002
`_calculateCurrentPlaybackTime` applies no cap at all: while playing it
grows beyond every bound, so the claim as stated fails for it. -/
theorem C1_elapsed_amended :
    (∀ (room : PartOneB.Room) (now : Int),
      (room.songEnabled && jsTruthyTime room.startTime) = true →
      PartOneB.getElapsedTimeSync room now =
        min (now - room.startTime.getD 0) room.songDuration ∧
      PartOneB.getElapsedTimeSync room now ≤ room.songDuration) ∧
    (∀ (room : PartOneB.Room) (now : Int),
      (room.songEnabled && jsTruthyTime room.startTime) = false →
      PartOneB.getElapsedTimeSync room now = jsOrInt room.savedElapsedTime 0) ∧
    (∀ (room : PartOneB.Room) (now : Int),
      PartOneB.getElapsedTime room now = PartOneB.getElapsedTimeSync room now) ∧
    (∀ (room : PartTwoB.Room) (M : Int),
      room.isPlaying = true → jsTruthyTime room.playbackStartTime = true →
      ∃ now, M < PartTwoB.calculateCurrentPlaybackTime room now) := by
  refine ⟨?_, ?_, ?_, ?_⟩
  · intro room now h
    refine ⟨by simp [PartOneB.getElapsedTimeSync, h], ?_⟩
    simp only [PartOneB.getElapsedTimeSync, h, if_true]
    exact min_le_right _ _
  · intro room now h
    simp [PartOneB.getElapsedTimeSync, h]
  · intro room now
    rfl
  · intro room M h1 h2
    refine ⟨room.playbackStartTime.getD 0 +
      max (M + 1 - jsOrInt room.songElapsedTime 0) 0, ?_⟩
    have hcond : (room.isPlaying && jsTruthyTime room.playbackStartTime) = true := by
      simp [h1, h2]
    have hnotlt : ¬ (room.playbackStartTime.getD 0 +
        max (M + 1 - jsOrInt room.songElapsedTime 0) 0 < room.playbackStartTime.getD 0) := by
      have := le_max_right (M + 1 - jsOrInt room.songElapsedTime 0) (0 : Int)
      omega
    simp only [PartTwoB.calculateCurrentPlaybackTime, hcond, Bool.not_true,
      Bool.false_eq_true, if_false, hnotlt]
    have := le_max_left (M + 1 - jsOrInt room.songElapsedTime 0) (0 : Int)
    omega

/-- C1 counterexample: the room of `songRoomB` is started through
`playSong` at server time 0 (playbackStartTime 2000); read at server time
200000, `_calculateCurrentPlaybackTime` returns 198000, above the 180000 ms
duration of the playing song and different from the claimed
min(now - startReferenceTime, totalDuration). -/
theorem C1_uncapped_cex :
    (PartTwoB.playSong songRoomB "s" 0).map
      (fun r => PartTwoB.calculateCurrentPlaybackTime r 200000) = Except.ok 198000 ∧
    (objGet songRoomB.songs "s").map PartTwoB.Song.duration = some 180000 ∧
    (180000 : Int) < 198000 ∧
    (198000 : Int) ≠ min (200000 - 2000) 180000 := by
  refine ⟨rfl, rfl, by norm_num, by decide⟩

/-- C2: the pause-then-play bug of the second part_001 RoomManager.  One
minute into a 3-minute song the elapsed read is 60000; but `pauseAudio`
assigns songEnabled false before reading the elapsed time, so the read
falls back to the already-cleared savedElapsedTime and pause stores 0
instead of 60000; the following `playAudio` with no explicit resume point
therefore restarts from 0 rather than resuming from the paused elapsed
time, contradicting the spec (pause stores the elapsed value and resume
continues from it). -/
theorem C2_pause_resume_bug :
    PartOneB.getElapsedTimeSync pausePlayRoom0 61000 = 60000 ∧
    pausePlayRoom1.savedElapsedTime = 0 ∧
    pausePlayRoom1.savedElapsedTime ≠ PartOneB.getElapsedTimeSync pausePlayRoom0 61000 ∧
    pausePlayRoom2.startTime = some 61000 ∧
    PartOneB.getElapsedTimeSync pausePlayRoom2 61000 = 0 := by
  refine ⟨by decide, by decide, by decide, by decide, by decide⟩

/-- C3 (amended): the play-audio and pause-audio handlers never schedule:
the state mutation is independent of the caller-supplied
serverTimeToExecute and takes effect immediately at receipt, and the
timestamp is merely forwarded verbatim inside the single immediate
broadcast, deferral being left to the clients. -/
theorem C3_no_deferral_amended :
    (∀ (st : PartZero.ManagerState) (roomId : Option String)
      (t t' s d : Option Int) (now : Int),
      (Sockets.handlePlayAudio st roomId t s d now).1 =
      (Sockets.handlePlayAudio st roomId t' s d now).1) ∧
    (∀ (st : PartZero.ManagerState) (rid : String) (t s d : Option Int) (now : Int),
      (Sockets.handlePlayAudio st (some rid) t s d now).2.map
        (fun p => p.serverTimeToExecute) = [t]) ∧
    (∀ (st : PartZero.ManagerState) (roomId : Option String) (t t' : Option Int),
      (Sockets.handlePauseAudio st roomId t).1 =
      (Sockets.handlePauseAudio st roomId t').1) ∧
    (∀ (st : PartZero.ManagerState) (rid : String) (t : Option Int),
      (Sockets.handlePauseAudio st (some rid) t).2.map
        (fun p => p.serverTimeToExecute) = [t]) := by
  refine ⟨?_, ?_, ?_, ?_⟩
  · intro st roomId t t' s d now
    cases roomId <;> rfl
  · intro st rid t s d now
    rfl
  · intro st roomId t t'
    cases roomId <;> rfl
  · intro st rid t
    rfl

/-- C3 counterexample: a play-audio command received at server time 0 with
executeAt 5000 (claimed delay max(0, 5000 - 0) = 5000 ms, so no mutation or
broadcast before then) in fact flips the room to playing and emits the
broadcast immediately at receipt. -/
theorem C3_immediate_cex :
    (objGet schedResult.1.rooms "1").map PartZero.Room.songEnabled = some true ∧
    schedResult.2.length = 1 ∧
    schedResult.2.map (fun p => p.serverTimeToExecute) = [some 5000] ∧
    (0 : Int) < max 0 (5000 - 0) := by
  refine ⟨rfl, rfl, rfl, by norm_num⟩

/-- C4 (amended): after every playback operation of the second part_001
RoomManager (initRoom, playAudio in both directions, pauseAudio) the
mutual-exclusion invariant holds: songEnabled true forces a non-null
startTime and songEnabled false forces a null one.  The part_000 variant
satisfies only the first direction: its pauseAudio leaves startTime
untouched (see the counterexample). -/
theorem C4_invariant_amended :
    (∀ now : Int, playbackInv (PartOneB.initRoom now)) ∧
    (∀ (room : PartOneB.Room) (e : Bool) (el d : Option Int) (now : Int),
      playbackInv (PartOneB.playAudio room e el d now)) ∧
    (∀ (room : PartOneB.Room) (now : Int), playbackInv (PartOneB.pauseAudio room now)) := by
  refine ⟨?_, ?_, ?_⟩
  · intro now
    exact ⟨by simp [PartOneB.initRoom], fun _ => rfl⟩
  · intro room e el d now
    unfold playbackInv PartOneB.playAudio
    rcases d with _ | dv <;> cases e <;>
      simp [apply_ite (f := PartOneB.Room.startTime),
        apply_ite (f := PartOneB.Room.songEnabled)]
  · intro room now
    exact ⟨by simp [PartOneB.pauseAudio], fun _ => rfl⟩

/-- C4 counterexample: in the part_000 manager, a room that starts playing
at server time 1000 and is then paused through pauseAudio ends with
songEnabled false while startTime is still 1000, not null — the paused
representation of the claimed invariant does not hold there. -/
theorem C4_pause_leaves_startTime_cex :
    (objGet invState2.rooms "1").map (fun r => (r.songEnabled, r.startTime)) =
      some (false, some 1000) ∧
    (some 1000 : Option Int) ≠ none := by
  exact ⟨rfl, by decide⟩

/-- C5: the late-joiner sync of the first part_002 RoomManager never emits.
`sendLateJoinerSync` looks the segments up under `room.roomId`, a property
the room object never carries (`initRoom` does not set it and nothing else
does), so the Map lookup misses and the function warns and returns for
every input: the first conjunct proves it emits nothing for any room whose
roomId read is undefined.  The remaining conjuncts evaluate the failing
input: room 42 is 5000 ms into its track, the matching segment does exist
in `hlsStreams` under the real key 42, yet a join of the late joiner c9
completes with membership updated and zero late-joiner-sync emissions. -/
theorem C5_late_joiner_bug :
    (∀ (st : PartTwoA.ManagerState) (clientId : String) (room : PartTwoA.Room) (now : Int),
      room.roomId = none → PartTwoA.sendLateJoinerSync st clientId room now = []) ∧
    PartTwoA.getElapsedTimeSync lateRoom 6000 = 5000 ∧
    PartTwoA.getSegmentForTime lateMgr.hlsStreams (some "42") 5000 = some lateSeg0 ∧
    (PartTwoA.addClient 100 lateMgr "42" "bob" "c9" 6000).2.2 = [] ∧
    ((PartTwoA.addClient 100 lateMgr "42" "bob" "c9" 6000).2.1.clients.map Prod.fst) =
      ["c9"] := by
  refine ⟨?_, by decide, by decide, rfl, rfl⟩
  intro st clientId room now h
  simp [PartTwoA.sendLateJoinerSync, PartTwoA.getSegmentForTime, h]

/-- C6 (amended): adding a client whose username matches an existing member
evicts that member from the room membership before the insert, so exactly
one client with the username remains and the position recompute sees N
clients; in the second part_001 RoomManager the evicted socket mapping is
deleted as well, while the part_000 addClient leaves the evicted socket
entry in place (see the counterexample).  The freshness hypothesis on the
new client id reflects the transport-assigned unique connection ids. -/
theorem C6_username_eviction_amended :
    (∀ (R : Real) (st : PartOneB.ManagerState) (roomId u cid : String) (now : Int)
      (room : PartOneB.Room),
      cid ∉ (((objGet st.rooms roomId).getD (PartOneB.initRoom now)).clients.map Prod.fst) →
      objGet (PartOneB.addClient R st roomId u cid now).rooms roomId = some room →
      (room.clients.filter (fun p => p.2.username = u)).map Prod.fst = [cid] ∧
      room.clients.length =
        (((objGet st.rooms roomId).getD (PartOneB.initRoom now)).clients.filter
          (fun p => p.2.username ≠ u)).length + 1) ∧
    (∀ (R : Real) (st : PartOneB.ManagerState) (roomId u cid : String) (now : Int)
      (id : String),
      (∃ c, (id, c) ∈ ((objGet st.rooms roomId).getD (PartOneB.initRoom now)).clients ∧
        c.username = u) →
      id ≠ cid →
      id ∉ (PartOneB.addClient R st roomId u cid now).sockets) ∧
    (∀ (st : PartZero.ManagerState) (roomId u cid : String) (room : PartZero.Room),
      cid ∉ (((objGet st.rooms roomId).getD PartZero.initRoom).clients.map Prod.fst) →
      objGet (PartZero.addClient st roomId u cid).rooms roomId = some room →
      (room.clients.filter (fun p => p.2.username = u)).map Prod.fst = [cid] ∧
      room.clients.length =
        (((objGet st.rooms roomId).getD PartZero.initRoom).clients.filter
          (fun p => p.2.username ≠ u)).length + 1) := by
  refine ⟨?_, ?_, ?_⟩
  · intro R st roomId u cid now room hcid hroom
    unfold PartOneB.addClient at hroom
    rw [objGet_objSet_self] at hroom
    obtain rfl := (Option.some.injEq _ _).mp hroom
    have core := eviction_core PartOneB.Client.username
      ((objGet st.rooms roomId).getD (PartOneB.initRoom now)).clients u cid
      ⟨⟨0, 0⟩, u, now⟩ rfl hcid
    constructor
    · rw [updateClientPositionsB_filter_map_fst]
      exact core.1
    · rw [updateClientPositionsB_length]
      exact core.2
  · intro R st roomId u cid now id hex hne hmem
    obtain ⟨c, hc, hcu⟩ := hex
    have hid : id ∈ ((((objGet st.rooms roomId).getD (PartOneB.initRoom now)).clients.filter
        (fun p => p.2.username = u)).map (fun p => p.1)) :=
      List.mem_map.mpr ⟨(id, c), List.mem_filter.mpr ⟨hc, by simpa using hcu⟩, rfl⟩
    have := mem_of_mem_keySet hmem hne
    exact not_mem_foldl_keyDelete _ _ hid this
  · intro st roomId u cid room hcid hroom
    unfold PartZero.addClient at hroom
    rw [objGet_objSet_self] at hroom
    obtain rfl := (Option.some.injEq _ _).mp hroom
    have core := eviction_core PartZero.Client.username
      ((objGet st.rooms roomId).getD PartZero.initRoom).clients u cid
      ⟨⟨0, 0⟩, u⟩ rfl hcid
    constructor
    · rw [updateClientPositionsZ_filter_map_fst]
      exact core.1
    · rw [updateClientPositionsZ_length]
      exact core.2

/-- C6 counterexample: in the part_000 manager, room 1 holds member A named
alice with a live socket; after client B joins as alice, the membership
holds exactly B — but the sockets Map still holds the evicted A, because the
part_000 addClient never deletes the evicted socket mapping, so the claim
that the prior member is removed from its socket mapping fails there. -/
theorem C6_socket_not_removed_cex :
    ((objGet evictState1.rooms "1").map (fun r => r.clients.map Prod.fst)) = some ["B"] ∧
    "A" ∈ evictState1.sockets ∧
    (∃ c, ("A", c) ∈ ((objGet evictState.rooms "1").getD PartZero.initRoom).clients ∧
      c.username = "alice") := by
  refine ⟨rfl, ?_, ⟨⟨⟨0, 0⟩, "alice"⟩, List.Mem.head _, rfl⟩⟩
  show "A" ∈ keySet ["A"] "B"
  simp [keySet]

/-- C7: removeClient of the part_000 RoomManager.  Removing the last member
of an existing room deletes the persisted room state, drops the pending
SpatialMotion interval handle for that room id and broadcasts nothing;
removing a non-last member keeps the room with positions recomputed on the
remaining members and re-broadcasts the updated spatial payload; and
removing from a no-longer-existing room is a complete no-op, making the
teardown idempotent. -/
theorem C7_removeClient_teardown :
    (∀ (st : PartZero.ManagerState) (roomId cid : String) (room : PartZero.Room),
      objGet st.rooms roomId = some room →
      objDelete room.clients cid = [] →
      (PartZero.removeClient st roomId cid).2 = [] ∧
      objGet (PartZero.removeClient st roomId cid).1.rooms roomId = none ∧
      roomId ∉ (PartZero.removeClient st roomId cid).1.intervals) ∧
    (∀ (st : PartZero.ManagerState) (roomId cid : String) (room : PartZero.Room),
      objGet st.rooms roomId = some room →
      objDelete room.clients cid ≠ [] →
      objGet (PartZero.removeClient st roomId cid).1.rooms roomId =
        some (PartZero.updateClientPositions
          { room with clients := objDelete room.clients cid }) ∧
      (PartZero.removeClient st roomId cid).2 =
        PartZero.broadcastSpatialUpdate (keyDelete st.sockets cid)
          (PartZero.updateClientPositions
            { room with clients := objDelete room.clients cid })) ∧
    (∀ (st : PartZero.ManagerState) (roomId cid : String),
      objGet st.rooms roomId = none →
      PartZero.removeClient st roomId cid = (st, [])) := by
  refine ⟨?_, ?_, ?_⟩
  · intro st roomId cid room h1 h2
    refine ⟨?_, ?_, ?_⟩ <;>
      simp only [PartZero.removeClient, h1, h2, List.length_nil, if_true]
    · exact objGet_objDelete_self _ _
    · exact not_mem_keyDelete_self _ _
  · intro st roomId cid room h1 h2
    have hlen : ¬ ((objDelete room.clients cid).length = 0) := by
      simpa [List.length_eq_zero] using h2
    refine ⟨?_, ?_⟩ <;>
      simp only [PartZero.removeClient, h1, hlen, if_false]
    exact objGet_objSet_self _ _ _
  · intro st roomId cid h
    simp [PartZero.removeClient, h]

/-- C8 (amended): the gain of the second part_001 RoomManager (and the
first part_002 one, which shares the body) coincides with the reference
formula max(gMin, 1 - d/R) of the spec for every distance, with floor 0.1
and the configured RADIUS; the part_000 gain instead uses the quadratic
falloff max(0.05, 1 - (d/100)^2) (see the counterexample).  Both variants
still satisfy the boundary and monotonicity properties: gain 1 at distance
0, the floor at and beyond the radius, and non-increasing gain. -/
theorem C8_gain_amended :
    (∀ (R d : Real), 0 < R → PartOneB.calculateGain R d = specGain R 0.1 d) ∧
    PartZero.calculateGain 0 = 1 ∧
    (∀ d : Real, 100 ≤ d → PartZero.calculateGain d = 0.05) ∧
    (∀ d1 d2 : Real, 0 ≤ d1 → d1 ≤ d2 →
      PartZero.calculateGain d2 ≤ PartZero.calculateGain d1) ∧
    (∀ R : Real, 0 < R → PartOneB.calculateGain R 0 = 1) ∧
    (∀ R d : Real, 0 < R → R ≤ d → PartOneB.calculateGain R d = 0.1) ∧
    (∀ R d1 d2 : Real, 0 < R → d1 ≤ d2 →
      PartOneB.calculateGain R d2 ≤ PartOneB.calculateGain R d1) := by
  have hgain : ∀ R d : Real, PartOneB.calculateGain R d =
      if d ≥ R then 0.1 else max (1 - d / R) 0.1 := fun R d => rfl
  have hzgain : ∀ d : Real, PartZero.calculateGain d =
      max 0.05 (1 - (d / 100) ^ 2) := fun d => rfl
  refine ⟨?_, ?_, ?_, ?_, ?_, ?_, ?_⟩
  · intro R d hR
    rw [hgain]
    unfold specGain
    by_cases h : d ≥ R
    · rw [if_pos h]
      have h1 : (1 : Real) ≤ d / R := (one_le_div hR).mpr h
      rw [max_eq_left (by linarith)]
    · rw [if_neg h, max_comm]
  · rw [hzgain]
    norm_num
  · intro d hd
    rw [hzgain]
    have h1 : (1 : Real) ≤ d / 100 := by
      rw [le_div_iff₀ (by norm_num : (0:Real) < 100)]
      linarith
    have h2 : (1 : Real) ≤ (d / 100) ^ 2 := by nlinarith
    rw [max_eq_left (by linarith)]
  · intro d1 d2 h0 h12
    rw [hzgain, hzgain]
    refine max_le_max le_rfl ?_
    have ha : d1 / 100 ≤ d2 / 100 := by linarith
    have hb : (0 : Real) ≤ d1 / 100 := by positivity
    have : (d1 / 100) ^ 2 ≤ (d2 / 100) ^ 2 := by nlinarith
    linarith
  · intro R hR
    rw [hgain]
    rw [if_neg (by intro h; exact absurd (le_antisymm h (le_of_lt hR)) (by linarith))]
    rw [zero_div, sub_zero, max_eq_left (by norm_num)]
  · intro R d hR hd
    rw [hgain, if_pos hd]
  · intro R d1 d2 hR h12
    rw [hgain, hgain]
    by_cases hd1 : d1 ≥ R
    · rw [if_pos hd1, if_pos (le_trans hd1 h12)]
    · rw [if_neg hd1]
      by_cases hd2 : d2 ≥ R
      · rw [if_pos hd2]
        exact le_max_right _ _
      · rw [if_neg hd2]
        refine max_le_max ?_ le_rfl
        have : d1 / R ≤ d2 / R := by gcongr
        linarith

/-- C8 counterexample: the part_000 gain at distance 50 is the quadratic
max(0.05, 1 - (50/100)^2) = 0.75, while the reference formula with the
configured radius 100 and floor 0.05 gives max(0.05, 1 - 50/100) = 0.5, so
the claimed coincidence with the reference definition fails. -/
theorem C8_quadratic_cex :
    PartZero.calculateGain 50 = 3 / 4 ∧
    specGain 100 0.05 50 = 1 / 2 ∧
    PartZero.calculateGain 50 ≠ specGain 100 0.05 50 := by
  have h1 : PartZero.calculateGain 50 = 3 / 4 := by
    have : PartZero.calculateGain 50 = max 0.05 (1 - ((50:Real) / 100) ^ 2) := rfl
    rw [this, max_eq_right (by norm_num)]
    norm_num
  have h2 : specGain 100 0.05 50 = 1 / 2 := by
    unfold specGain
    rw [max_eq_right (by norm_num)]
    norm_num
  exact ⟨h1, h2, by rw [h1, h2]; norm_num⟩

/-- C9 (amended): in the second part_001 RoomManager, a disabled spatial
mode makes every gain entry of the spatial-update payload the literal 1.0
for every listener and distance; in part_000 only the final payload of
stopSpatialAudioLoop is uniformly 1, while broadcastSpatialUpdate itself
computes distance-based gains with no spatialEnabled check at all (see the
counterexample). -/
theorem C9_uniform_gain_amended :
    (∀ (R : Real) (room : PartOneB.Room) (now : Int) (p : String × Real),
      room.spatialEnabled = false →
      p ∈ (PartOneB.spatialUpdatePayload R room now).gains → p.2 = 1) ∧
    (∀ (room : PartZero.Room) (p : String × Real),
      p ∈ (PartZero.stopSpatialAudioLoopPayload room).gains → p.2 = 1) := by
  constructor
  · intro R room now p h hp
    simp only [PartOneB.spatialUpdatePayload, h, Bool.false_eq_true, if_false,
      List.mem_map] at hp
    obtain ⟨q, _, rfl⟩ := hp
    norm_num
  · intro room p hp
    simp only [PartZero.stopSpatialAudioLoopPayload, List.mem_map] at hp
    obtain ⟨q, _, rfl⟩ := hp
    rfl

/-- C9 counterexample: a part_000 room with spatial mode disabled, source at
the origin and one member at (50, 0) gets a spatial-update payload whose
gain entry for that member is 0.75, not 1.0: broadcastSpatialUpdate of
part_000 ignores spatialEnabled when computing gains. -/
theorem C9_distance_gain_cex :
    gainRoom.spatialEnabled = false ∧
    (PartZero.spatialUpdatePayload gainRoom).gains =
      [("c1", PartZero.calculateGain (pointDistance ⟨50, 0⟩ ⟨0, 0⟩))] ∧
    PartZero.calculateGain (pointDistance ⟨50, 0⟩ ⟨0, 0⟩) = 3 / 4 ∧
    (3 / 4 : Real) ≠ 1 := by
  have hdist : pointDistance ⟨50, 0⟩ ⟨0, 0⟩ = 50 := by
    show Real.sqrt (((50:Real) - 0) ^ 2 + ((0:Real) - 0) ^ 2) = 50
    rw [show ((50:Real) - 0) ^ 2 + ((0:Real) - 0) ^ 2 = 50 ^ 2 by norm_num]
    exact Real.sqrt_sq (by norm_num)
  refine ⟨rfl, rfl, ?_, by norm_num⟩
  rw [hdist]
  have : PartZero.calculateGain 50 = max 0.05 (1 - ((50:Real) / 100) ^ 2) := rfl
  rw [this, max_eq_right (by norm_num)]
  norm_num

/-- C10: the ntp-request handler echoes the client timestamp t0 unchanged in
exactly one ntp-response per request, falls back to the local receipt-time
clock reading for t1 when the external NTP query fails, stamps t2 with the
emission-time clock reading, and passes the room-manager state through
untouched. -/
theorem C10_ntp_response :
    ∀ (st : PartZero.ManagerState) (t0 t1 : Int) (ntpResult : Option Int)
      (t2cb emitTime : Int),
      (Sockets.handleNtpRequest st t0 t1 ntpResult t2cb emitTime).1 = st ∧
      (Sockets.handleNtpRequest st t0 t1 ntpResult t2cb emitTime).2.length = 1 ∧
      (∀ resp ∈ (Sockets.handleNtpRequest st t0 t1 ntpResult t2cb emitTime).2,
        resp.t0 = t0 ∧ (ntpResult = none → resp.t1 = t1) ∧ resp.t2 = emitTime) := by
  intro st t0 t1 ntpResult t2cb emitTime
  refine ⟨rfl, rfl, ?_⟩
  intro resp hresp
  simp only [Sockets.handleNtpRequest, List.mem_singleton] at hresp
  subst hresp
  refine ⟨rfl, ?_, rfl⟩
  intro h
  rw [h]

end SyncBit
